import Mathlib

/-!
Shallow embedding of src/python_server/server.py, a minimal FastMCP server
exposing three tools (health_check, echo_text, compute_sum) and an entry
point that selects a transport from environment variables.

Modelling decisions:
- Strings are Lean String values; the numeric type of compute_sum
  (Python float, IEEE 754 binary64) is abstracted as a type F with an
  Add instance, so theorems about the handler hold for the binary64
  addition in particular; exact examples are instantiated at Rat, on
  inputs whose binary64 sums are exact.
- Each handler returns its value together with the list of log records
  it emits; log records carry the stream the configured logging sink
  writes to (logging.basicConfig with the default StreamHandler writes
  to stderr).
- Runtime events the code reacts to (the 5-second guard elapsing, an
  unexpected exception inside the try block) are an explicit
  SumOutcome parameter of computeSum.
- The entry point main is a pure function from the environment
  (String to Option String) to the action the process takes: serve
  stdio, serve HTTP, exit via SystemExit, or die of an unhandled
  exception; plus its log records.
- Python str.lower is modelled on ASCII (the decision on which branch
  of main runs only distinguishes the ASCII words stdio and http);
  Python int() parsing is modelled with optional surrounding
  whitespace, an optional sign, and ASCII digits with single
  underscores between digits.
-/

namespace MCPServer

/-- The two process output streams; logging.basicConfig installs a
StreamHandler with no stream argument, which writes to stderr. -/
inductive LogStream where
  | stdout : LogStream
  | stderr : LogStream
deriving DecidableEq, Repr

/-- One record emitted through the module logger. The stream is fixed
by the logging configuration at module import time. -/
structure LogRecord where
  stream : LogStream
  level : String
  message : String
  excDetail : Option String
deriving DecidableEq, Repr

/-- Building a record through the module logger configured by
logging.basicConfig(level=logging.INFO): the default handler writes to
stderr, never stdout. -/
def logRecord (level message : String) (excDetail : Option String) : LogRecord :=
  { stream := LogStream.stderr, level := level, message := message, excDetail := excDetail }

/-- Output schema of health_check (pydantic model HealthCheckResult). -/
structure HealthCheckResult where
  status : String
deriving DecidableEq, Repr

/-- The pydantic constraint on HealthCheckResult.status, declared as
Literal with the single value ok. -/
def HealthCheckResult.schemaValid (r : HealthCheckResult) : Prop :=
  r.status = "ok"

/-- The health_check tool: no arguments, returns HealthCheckResult(status=ok),
emits no log records. -/
def healthCheck : HealthCheckResult × List LogRecord :=
  ({ status := "ok" }, [])

/-- Input schema of echo_text (pydantic model EchoParams). -/
structure EchoParams where
  text : String
deriving DecidableEq, Repr

/-- Output schema of echo_text (pydantic model EchoResult). -/
structure EchoResult where
  text : String
deriving DecidableEq, Repr

/-- The echo_text tool: returns EchoResult(text=params.text), emits no
log records. -/
def echoText (params : EchoParams) : EchoResult × List LogRecord :=
  ({ text := params.text }, [])

/-- Input schema of compute_sum (pydantic model SumParams); F abstracts
the Python float type (IEEE 754 binary64). -/
structure SumParams (F : Type) where
  a : F
  b : F
deriving DecidableEq, Repr

/-- Output schema of compute_sum (pydantic model SumResult). -/
structure SumResult (F : Type) where
  result : F
deriving DecidableEq, Repr

/-- A raised Python exception as observed by the dispatcher: the
exception class name and its message. -/
structure PyExc where
  pyType : String
  message : String
deriving DecidableEq, Repr

/-- The runtime event that occurs while the body of compute_sum runs
under asyncio.timeout(5): normal completion, the guard deadline
elapsing (asyncio.TimeoutError), or any other unexpected exception,
carrying its detail text. -/
inductive SumOutcome where
  | completed : SumOutcome
  | timedOut : SumOutcome
  | failed : String → SumOutcome
deriving DecidableEq, Repr

/-- The compute_sum tool. On normal completion it returns
SumResult(result=params.a + params.b) using the addition of F. If the
guard elapses it logs to the module logger and raises
RuntimeError(timeout message); on any other exception it logs the
detail and raises RuntimeError(internal error message). -/
def computeSum {F : Type} [Add F] (o : SumOutcome) (params : SumParams F) :
    Except PyExc (SumResult F) × List LogRecord :=
  match o with
  | SumOutcome.completed =>
      (Except.ok { result := params.a + params.b }, [])
  | SumOutcome.timedOut =>
      (Except.error { pyType := "RuntimeError",
                      message := "timeout: operation exceeded 5 seconds" },
       [logRecord "ERROR" "compute_sum timed out" (some "TimeoutError")])
  | SumOutcome.failed detail =>
      (Except.error { pyType := "RuntimeError",
                      message := "internal_error: failed to compute sum" },
       [logRecord "ERROR" "compute_sum encountered an unexpected error" (some detail)])

/-- ASCII lowercasing of one character, as Python str.lower acts on
ASCII letters. -/
def asciiLowerChar (c : Char) : Char :=
  if 'A' ≤ c ∧ c ≤ 'Z' then Char.ofNat (c.toNat + 32) else c

/-- Python str.lower, modelled on ASCII letters. -/
def pyLower (s : String) : String :=
  String.mk (s.data.map asciiLowerChar)

/-- Whitespace stripped by Python int() before parsing. -/
def isPySpace (c : Char) : Bool :=
  c = ' ' ∨ c = '\t' ∨ c = '\n' ∨ c = '\r' ∨ c = Char.ofNat 11 ∨ c = Char.ofNat 12

/-- ASCII decimal digit test. -/
def isAsciiDigit (c : Char) : Bool :=
  '0' ≤ c ∧ c ≤ '9'

/-- Numeric value of an ASCII digit. -/
def digitVal (c : Char) : Nat :=
  c.toNat - 48

/-- Digits after the first one in Python int() syntax: a single
underscore may separate two digits, never trail. -/
def pyDigitsAux : List Char → Nat → Option Nat
  | [], acc => some acc
  | '_' :: c :: rest, acc =>
      if isAsciiDigit c then pyDigitsAux rest (acc * 10 + digitVal c) else none
  | ['_'], _ => none
  | c :: rest, acc =>
      if isAsciiDigit c then pyDigitsAux rest (acc * 10 + digitVal c) else none

/-- A nonempty digit run in Python int() syntax. -/
def pyDigits : List Char → Option Nat
  | [] => none
  | c :: rest => if isAsciiDigit c then pyDigitsAux rest (digitVal c) else none

/-- Python int(s) on a string: strips whitespace, takes an optional
sign, then a digit run. Returns none where int() raises ValueError. -/
def pyIntParse (s : String) : Option Int :=
  let cs := ((s.data.dropWhile isPySpace).reverse.dropWhile isPySpace).reverse
  match cs with
  | '+' :: rest => (pyDigits rest).map (fun n => (n : Int))
  | '-' :: rest => (pyDigits rest).map (fun n => -(n : Int))
  | _ => (pyDigits cs).map (fun n => (n : Int))

/-- The action the process takes when main runs: serve the stdio
transport, serve the HTTP transport on a host, port and path, exit via
SystemExit with a message (exit status 1), or die of an unhandled
exception of the given class (exit status 1). -/
inductive StartAction where
  | stdioServe : StartAction
  | httpServe : String → Int → String → StartAction
  | exitWithError : String → StartAction
  | unhandledCrash : String → StartAction
deriving DecidableEq, Repr

/-- Whether the action starts a transport and can serve requests. -/
def StartAction.startsTransport : StartAction → Bool
  | StartAction.stdioServe => true
  | StartAction.httpServe _ _ _ => true
  | StartAction.exitWithError _ => false
  | StartAction.unhandledCrash _ => false

/-- Whether the action terminates the process with a non-zero exit
status: SystemExit with a string argument exits with status 1, and an
unhandled exception also exits with status 1. -/
def StartAction.exitsNonZero : StartAction → Bool
  | StartAction.stdioServe => false
  | StartAction.httpServe _ _ _ => false
  | StartAction.exitWithError _ => true
  | StartAction.unhandledCrash _ => true

/-- The main entry point: reads MCP_TRANSPORT (default stdio),
lowercases it, and dispatches. The stdio branch logs and runs
mcp.run(); the http branch converts MCP_HTTP_PORT (default 3333) with
int() — a non-integer value raises ValueError unhandled — reads
MCP_HTTP_HOST (default 127.0.0.1), logs, and runs mcp.run_http, which
serves the MCP endpoint at path /mcp; any other transport value logs
an error and raises SystemExit with a message, exiting non-zero. -/
def main (env : String → Option String) : StartAction × List LogRecord :=
  let transport := pyLower ((env "MCP_TRANSPORT").getD "stdio")
  if transport = "stdio" then
    (StartAction.stdioServe,
     [logRecord "INFO" "Starting MCP server using stdio transport" none])
  else if transport = "http" then
    match pyIntParse ((env "MCP_HTTP_PORT").getD "3333") with
    | some port =>
        let host := (env "MCP_HTTP_HOST").getD "127.0.0.1"
        (StartAction.httpServe host port "/mcp",
         [logRecord "INFO"
            ("Starting MCP server on http://" ++ host ++ ":" ++ toString port ++ "/mcp") none])
    | none => (StartAction.unhandledCrash "ValueError", [])
  else
    (StartAction.exitWithError "Invalid MCP_TRANSPORT; expected \x27stdio\x27 or \x27http\x27",
     [logRecord "ERROR" ("Unknown MCP_TRANSPORT value: " ++ transport) none])

/-- An environment with only MCP_TRANSPORT set, to the given value. -/
def envT (v : String) : String → Option String :=
  fun key => if key = "MCP_TRANSPORT" then some v else none

/-- Equality of two strings up to ASCII case. -/
def asciiCaseEq (s t : String) : Bool :=
  pyLower s = pyLower t

/-- An environment with MCP_TRANSPORT and MCP_HTTP_PORT set. -/
def envTP (t p : String) : String → Option String :=
  fun key =>
    if key = "MCP_TRANSPORT" then some t
    else if key = "MCP_HTTP_PORT" then some p
    else none

/-- Evaluation helper: lowercasing stdio is the identity. -/
theorem pyLower_stdio : pyLower "stdio" = "stdio" := by decide

/-- Evaluation helper: lowercasing http is the identity. -/
theorem pyLower_http : pyLower "http" = "http" := by decide

/-- Evaluation helper: the default port string parses to 3333. -/
theorem pyIntParse_default_port : pyIntParse "3333" = some 3333 := by decide

/-- C1: compute_sum, on normal completion, returns an object whose single
field result is params.a + params.b under the addition of the scalar type
F — the binary64 addition of the host in particular, applied with no
special guarding, so NaN and Infinity propagate exactly as that addition
propagates them; instantiated at Rat, the examples 2.5 + 3.5 = 6.0 and
-1 + 1 = 0 hold exactly (both sums are exact in binary64). -/
theorem compute_sum_returns_sum :
    (∀ (F : Type) [Add F] (p : SumParams F),
      computeSum SumOutcome.completed p = (Except.ok { result := p.a + p.b }, [])) ∧
    computeSum SumOutcome.completed { a := (2.5 : ℚ), b := 3.5 } =
      (Except.ok { result := 6 }, []) ∧
    computeSum SumOutcome.completed { a := (-1 : ℚ), b := 1 } =
      (Except.ok { result := 0 }, []) := by
  refine ⟨fun F _ p => rfl, ?_, ?_⟩ <;> norm_num [computeSum]

/-- C2: echo_text is a strict identity on the text field: for every
string s, including the empty string and strings with control or
multi-byte characters, it returns exactly the input text, with no other
effect. -/
theorem echo_text_identity :
    ∀ s : String, echoText { text := s } = ({ text := s }, []) :=
  fun _ => rfl

/-- C3: when the 5-second guard elapses before completion, compute_sum
returns no result: it raises the failure the taxonomy of the spec calls
TimeoutError, carried as RuntimeError with the exact message
timeout: operation exceeded 5 seconds, surfaced unchanged to the
dispatcher, together with one stderr log record. -/
theorem compute_sum_timeout_contract :
    ∀ (F : Type) [Add F] (p : SumParams F),
      computeSum SumOutcome.timedOut p =
        (Except.error { pyType := "RuntimeError",
                        message := "timeout: operation exceeded 5 seconds" },
         [logRecord "ERROR" "compute_sum timed out" (some "TimeoutError")]) :=
  fun _ _ _ => rfl

/-- C4: for every non-timeout unexpected failure detail, compute_sum
reports to the caller the fixed generic failure with message
internal_error: failed to compute sum — a value independent of the
detail, so the original detail never appears in it; the detail goes
only to the stderr log record. -/
theorem compute_sum_internal_error_sanitized :
    ∀ (F : Type) [Add F] (detail : String) (p : SumParams F),
      (computeSum (SumOutcome.failed detail) p).fst =
        Except.error { pyType := "RuntimeError",
                       message := "internal_error: failed to compute sum" } ∧
      (computeSum (SumOutcome.failed detail) p).snd =
        [logRecord "ERROR" "compute_sum encountered an unexpected error" (some detail)] :=
  fun _ _ _ _ => ⟨rfl, rfl⟩

/-- C5 counterexample: the value STDIO is neither stdio nor http, yet
the entry point starts the stdio transport instead of exiting — the
claim as stated fails because main lowercases the value first. -/
theorem transport_value_STDIO_not_rejected :
    "STDIO" ≠ "stdio" ∧ "STDIO" ≠ "http" ∧
    (main (envT "STDIO")).fst = StartAction.stdioServe ∧
    StartAction.startsTransport (main (envT "STDIO")).fst = true := by
  decide

/-- C5 amended: for every MCP_TRANSPORT value whose ASCII lowercase form
is neither stdio nor http, the entry point raises SystemExit with the
invalid-configuration message, the process exits with non-zero status,
and no transport is started. -/
theorem invalid_transport_exits_nonzero :
    ∀ (env : String → Option String) (v : String),
      env "MCP_TRANSPORT" = some v →
      pyLower v ≠ "stdio" →
      pyLower v ≠ "http" →
      (main env).fst =
          StartAction.exitWithError
            "Invalid MCP_TRANSPORT; expected \x27stdio\x27 or \x27http\x27" ∧
      StartAction.startsTransport (main env).fst = false ∧
      StartAction.exitsNonZero (main env).fst = true := by
  intro env v henv h1 h2
  have hmain : main env =
      (StartAction.exitWithError
          "Invalid MCP_TRANSPORT; expected \x27stdio\x27 or \x27http\x27",
       [logRecord "ERROR" ("Unknown MCP_TRANSPORT value: " ++ pyLower v) none]) := by
    simp [main, henv, h1, h2]
  rw [hmain]
  exact ⟨rfl, rfl, rfl⟩

/-- C5 witness: the amended theorem applied to the concrete value
carrier-pigeon. -/
theorem invalid_transport_exits_nonzero_witness :
    (main (envT "carrier-pigeon")).fst =
        StartAction.exitWithError
          "Invalid MCP_TRANSPORT; expected \x27stdio\x27 or \x27http\x27" ∧
    StartAction.startsTransport (main (envT "carrier-pigeon")).fst = false ∧
    StartAction.exitsNonZero (main (envT "carrier-pigeon")).fst = true :=
  invalid_transport_exits_nonzero (envT "carrier-pigeon") "carrier-pigeon"
    rfl (by decide) (by decide)

/-- C6: health_check takes no input, produces no log record or other
effect, and returns exactly the object with status ok, which satisfies
the Literal schema constraint on the status field. -/
theorem health_check_fixed_ok :
    healthCheck = ({ status := "ok" }, []) ∧
    HealthCheckResult.schemaValid healthCheck.fst :=
  ⟨rfl, rfl⟩

/-- C7: transport selection — with MCP_TRANSPORT unset, main starts the
stdio transport; with MCP_TRANSPORT http, main serves HTTP at path /mcp
binding MCP_HTTP_HOST (default 127.0.0.1) and MCP_HTTP_PORT (default
3333), and an explicitly set host and parseable port are used as
given. -/
theorem transport_selection_contract :
    (∀ env : String → Option String,
      env "MCP_TRANSPORT" = none → (main env).fst = StartAction.stdioServe) ∧
    (∀ env : String → Option String,
      env "MCP_TRANSPORT" = some "http" →
      env "MCP_HTTP_PORT" = none →
      env "MCP_HTTP_HOST" = none →
      (main env).fst = StartAction.httpServe "127.0.0.1" 3333 "/mcp") ∧
    (∀ (env : String → Option String) (h p : String) (n : Int),
      env "MCP_TRANSPORT" = some "http" →
      env "MCP_HTTP_PORT" = some p →
      pyIntParse p = some n →
      env "MCP_HTTP_HOST" = some h →
      (main env).fst = StartAction.httpServe h n "/mcp") := by
  refine ⟨?_, ?_, ?_⟩
  · intro env henv
    simp [main, henv, pyLower_stdio]
  · intro env henv hport hhost
    simp [main, henv, hport, hhost, pyLower_http, pyIntParse_default_port]
  · intro env h p n henv hport hparse hhost
    simp [main, henv, hport, hparse, hhost, pyLower_http]

/-- C7 witness: the selection theorem applied to the empty environment
and to an environment that only sets MCP_TRANSPORT to http. -/
theorem transport_selection_contract_witness :
    (main (fun _ => none)).fst = StartAction.stdioServe ∧
    (main (envT "http")).fst = StartAction.httpServe "127.0.0.1" 3333 "/mcp" :=
  ⟨transport_selection_contract.1 (fun _ => none) rfl,
   transport_selection_contract.2.1 (envT "http") rfl rfl rfl⟩

/-- C8: no diagnostic output ever goes to the protocol-carrying stdout
stream: health_check and echo_text emit no log records at all, and
every log record emitted by compute_sum under any outcome and by main
under any environment goes to stderr. -/
theorem diagnostics_never_on_stdout :
    healthCheck.snd = [] ∧
    (∀ p : EchoParams, (echoText p).snd = []) ∧
    (∀ (F : Type) [Add F] (o : SumOutcome) (p : SumParams F),
      ((computeSum o p).snd).all (fun r => r.stream == LogStream.stderr) = true) ∧
    (∀ env : String → Option String,
      ((main env).snd).all (fun r => r.stream == LogStream.stderr) = true) := by
  refine ⟨rfl, fun _ => rfl, ?_, ?_⟩
  · intro F _ o p
    cases o <;> rfl
  · intro env
    simp only [main]
    split
    · rfl
    · split
      · split <;> rfl
      · rfl

/-- C9: transport selection is case-insensitive because main lowercases
the MCP_TRANSPORT value before comparing: every value equal to stdio up
to ASCII case starts the stdio transport, and every value equal to http
up to ASCII case starts the HTTP transport with the default binding,
rather than the process exiting with an invalid-configuration error. -/
theorem transport_case_insensitive :
    ∀ s : String,
      (asciiCaseEq s "stdio" = true → (main (envT s)).fst = StartAction.stdioServe) ∧
      (asciiCaseEq s "http" = true →
        (main (envT s)).fst = StartAction.httpServe "127.0.0.1" 3333 "/mcp") := by
  intro s
  constructor
  · intro h
    rw [asciiCaseEq, decide_eq_true_eq] at h
    have hs : pyLower s = "stdio" := by rw [h]; decide
    simp [main, envT, hs]
  · intro h
    rw [asciiCaseEq, decide_eq_true_eq] at h
    have hs : pyLower s = "http" := by rw [h]; decide
    simp [main, envT, hs, pyIntParse_default_port]

/-- C9 witness: the case-insensitivity theorem applied to the concrete
values STDIO and Http. -/
theorem transport_case_insensitive_witness :
    (main (envT "STDIO")).fst = StartAction.stdioServe ∧
    (main (envT "Http")).fst = StartAction.httpServe "127.0.0.1" 3333 "/mcp" :=
  ⟨(transport_case_insensitive "STDIO").1 (by decide),
   (transport_case_insensitive "Http").2 (by decide)⟩

/-- C10: with MCP_TRANSPORT http and an MCP_HTTP_PORT value on which
int() fails, main dies of an unhandled ValueError before starting any
transport and before logging anything — not via the SystemExit
invalid-configuration path used for a bad MCP_TRANSPORT value. -/
theorem bad_port_unhandled_valueerror :
    ∀ (env : String → Option String) (s : String),
      env "MCP_TRANSPORT" = some "http" →
      env "MCP_HTTP_PORT" = some s →
      pyIntParse s = none →
      (main env).fst = StartAction.unhandledCrash "ValueError" ∧
      (main env).snd = [] ∧
      StartAction.startsTransport (main env).fst = false ∧
      ∀ m : String, (main env).fst ≠ StartAction.exitWithError m := by
  intro env s henv hport hparse
  have hmain : main env = (StartAction.unhandledCrash "ValueError", []) := by
    simp [main, henv, hport, hparse, pyLower_http]
  rw [hmain]
  exact ⟨rfl, rfl, rfl, fun m hm => StartAction.noConfusion hm⟩

/-- C10 witness: the theorem applied to the concrete environment with
MCP_TRANSPORT http and MCP_HTTP_PORT abc. -/
theorem bad_port_unhandled_valueerror_witness :
    (main (envTP "http" "abc")).fst = StartAction.unhandledCrash "ValueError" ∧
    (main (envTP "http" "abc")).snd = [] := by
  have h := bad_port_unhandled_valueerror (envTP "http" "abc") "abc" rfl rfl (by decide)
  exact ⟨h.1, h.2.1⟩

end MCPServer
